import Mathlib

/-!
Shallow embedding of `src/whoisChecker.js`'s domain-trust scoring engine
(`generateTrustReport` and its policy constants) and proofs about it.

The evaluator queries DNS for six record kinds (SPF via TXT, DMARC via TXT
at `_dmarc.<domain>`, NS, CNAME at `www.<domain>`, A, MX), classifies each
outcome against the static `SCORE_CRITERIA` table, accumulates a signed
integer `totalScore` and a list of report lines, and returns them.

The Node `dns.promises` resolver is modelled as a record of functions, one
per query kind, each returning either a record set or a classified error
carrying the Node error `code` string (`"ENODATA"`, `"ENOTFOUND"`, or any
other code for a transient failure) and a human-readable `message`.

Each report line of the JS code (a string such as `"✅ [+10] ..."`) is
modelled as a `Finding` holding the emoji prefix, the bracketed score
delta, and the message text.
-/

/-- A classified DNS error, mirroring a Node.js error object: its `code`
string (compared against `"ENODATA"` and `"ENOTFOUND"` by the evaluator)
and its `message`. -/
structure DnsError where
  code : String
  message : String
deriving DecidableEq

/-- An MX record as returned by `dns.resolveMx`; the evaluator only ever
inspects the length of the returned list. -/
structure MxRecord where
  priority : Nat
  exchange : String
deriving DecidableEq

/-- The resolver capability: one function per DNS query kind used by
`generateTrustReport`. TXT queries return a list of records, each a list
of string segments; the others return lists of host/address strings. -/
structure Resolver where
  resolveTxt : String → Except DnsError (List (List String))
  resolveNs : String → Except DnsError (List String)
  resolveCname : String → Except DnsError (List String)
  resolve4 : String → Except DnsError (List String)
  resolveMx : String → Except DnsError (List MxRecord)
  reverse : String → Except DnsError (List String)

/-- One report line: the emoji severity prefix, the bracketed score delta
printed in the line, and the message text. -/
structure Finding where
  emoji : String
  scoreDelta : Int
  message : String
deriving DecidableEq

/-- The structured result of one analysis: the domain, the accumulated
`totalScore`, and the report lines in the order they were pushed. -/
structure TrustReport where
  domain : String
  totalScore : Int
  findings : List Finding
deriving DecidableEq

/-- JS `String.prototype.includes` on explicit character lists: `sub`
occurs contiguously in the list. -/
def charsInclude (sub : List Char) : List Char → Bool
  | [] => sub.isEmpty
  | c :: rest => List.isPrefixOf sub (c :: rest) || charsInclude sub rest

/-- JS `s.includes(sub)`: substring containment test. -/
def strIncludes (s sub : String) : Bool :=
  charsInclude sub.data s.data

/-- JS `s.toLowerCase()`: character-wise lowering. -/
def strToLower (s : String) : String :=
  ⟨s.data.map Char.toLower⟩

/-- JS `s.startsWith(pre)`. -/
def strStartsWith (s pre : String) : Bool :=
  List.isPrefixOf pre.data s.data

/-- JS `array.join('')` on an array of strings: concatenation. -/
def strJoin (segments : List String) : String :=
  segments.foldl (fun a b => a ++ b) ""

/-- One entry of the `SCORE_CRITERIA` policy table: a score delta and a
message. -/
structure RuleOutcome where
  score : Int
  message : String
deriving DecidableEq

namespace SCORE_CRITERIA

def SPF_exists : RuleOutcome := ⟨10, "SPF 레코드가 존재합니다."⟩

def SPF_not_exists : RuleOutcome := ⟨-10, "SPF 레코드가 존재하지 않습니다."⟩

def DMARC_exists : RuleOutcome := ⟨10, "DMARC 레코드가 존재합니다."⟩

def DMARC_not_exists : RuleOutcome := ⟨-10, "DMARC 레코드가 존재하지 않습니다."⟩

def NS_reliable : RuleOutcome := ⟨10, "신뢰할 수 있는 네임서버를 사용합니다."⟩

def NS_unreliable : RuleOutcome := ⟨-10, "무료 또는 신뢰도가 낮은 네임서버를 사용합니다."⟩

def CNAME_normal : RuleOutcome := ⟨5, "CNAME 레코드가 정상적으로 연결되어 있습니다."⟩

def CNAME_deprecated : RuleOutcome := ⟨-15, "CNAME 레코드가 폐기된 서비스에 연결된 것으로 보입니다."⟩

def A_stable : RuleOutcome := ⟨5, "안정적인 IP 주소를 사용합니다 (클라우드 서비스)."⟩

def A_unstable : RuleOutcome := ⟨-10, "IP 주소가 불안정하거나 Fast Flux로 의심됩니다."⟩

def MX_exists : RuleOutcome := ⟨5, "MX 레코드가 존재합니다."⟩

def MX_not_exists : RuleOutcome := ⟨-5, "MX 레코드가 존재하지 않습니다."⟩

end SCORE_CRITERIA

def RELIABLE_NS_PROVIDERS : List String := ["cloudflare", "aws", "azure", "google"]

def RELIABLE_IP_PROVIDERS : List String := ["amazonaws", "azure", "google"]

/-- Check 1 of `generateTrustReport`: SPF via `dns.resolveTxt(domain)`.
Returns the amount added to `totalScore` and the report lines pushed. -/
def checkSPF (domain : String) (r : Resolver) : Int × List Finding :=
  match r.resolveTxt domain with
  | Except.ok spfRecords =>
    let hasSpf := spfRecords.any fun record => strStartsWith (strJoin record) "v=spf1"
    if hasSpf then
      (SCORE_CRITERIA.SPF_exists.score, [⟨"✅", 10, SCORE_CRITERIA.SPF_exists.message⟩])
    else
      (SCORE_CRITERIA.SPF_not_exists.score, [⟨"❌", -10, SCORE_CRITERIA.SPF_not_exists.message⟩])
  | Except.error e =>
    if e.code = "ENODATA" ∨ e.code = "ENOTFOUND" then
      (SCORE_CRITERIA.SPF_not_exists.score, [⟨"❌", -10, SCORE_CRITERIA.SPF_not_exists.message⟩])
    else
      (0, [⟨"⚠️", 0, "SPF 레코드 확인 중 오류 발생: " ++ e.message⟩])

/-- Check 2: DMARC via `dns.resolveTxt("_dmarc." + domain)`. -/
def checkDMARC (domain : String) (r : Resolver) : Int × List Finding :=
  match r.resolveTxt ("_dmarc." ++ domain) with
  | Except.ok dmarcRecords =>
    let hasDmarc := dmarcRecords.any fun record => strStartsWith (strJoin record) "v=DMARC1"
    if hasDmarc then
      (SCORE_CRITERIA.DMARC_exists.score, [⟨"✅", 10, SCORE_CRITERIA.DMARC_exists.message⟩])
    else
      (SCORE_CRITERIA.DMARC_not_exists.score, [⟨"❌", -10, SCORE_CRITERIA.DMARC_not_exists.message⟩])
  | Except.error e =>
    if e.code = "ENODATA" ∨ e.code = "ENOTFOUND" then
      (SCORE_CRITERIA.DMARC_not_exists.score, [⟨"❌", -10, SCORE_CRITERIA.DMARC_not_exists.message⟩])
    else
      (0, [⟨"⚠️", 0, "DMARC 레코드 확인 중 오류 발생: " ++ e.message⟩])

/-- Check 3: nameserver reliability via `dns.resolveNs(domain)`. Any
lookup error yields the zero-delta warning line. -/
def checkNS (domain : String) (r : Resolver) : Int × List Finding :=
  match r.resolveNs domain with
  | Except.ok nsRecords =>
    let isReliable := nsRecords.any fun ns =>
      RELIABLE_NS_PROVIDERS.any fun provider => strIncludes (strToLower ns) provider
    if isReliable then
      (SCORE_CRITERIA.NS_reliable.score,
        [⟨"✅", 10, SCORE_CRITERIA.NS_reliable.message ++ " (" ++ String.intercalate ", " nsRecords ++ ")"⟩])
    else
      (SCORE_CRITERIA.NS_unreliable.score,
        [⟨"❌", -10, SCORE_CRITERIA.NS_unreliable.message ++ " (" ++ String.intercalate ", " nsRecords ++ ")"⟩])
  | Except.error e =>
    (0, [⟨"⚠️", 0, "NS 레코드 확인 중 오류 발생: " ++ e.message⟩])

/-- Check 4: CNAME at `www.<domain>` via `dns.resolveCname`. Success (any
answer, unused) is the normal outcome; `ENODATA` is neutral; `ENOTFOUND`
is the deprecated-service penalty; other errors yield a warning line. -/
def checkCNAME (domain : String) (r : Resolver) : Int × List Finding :=
  match r.resolveCname ("www." ++ domain) with
  | Except.ok _ =>
    (SCORE_CRITERIA.CNAME_normal.score, [⟨"✅", 5, SCORE_CRITERIA.CNAME_normal.message⟩])
  | Except.error e =>
    if e.code = "ENODATA" then
      (0, [⟨"ℹ️", 0, "www 서브도메인에 CNAME 레코드가 없습니다. (A 레코드 직접 사용)"⟩])
    else if e.code = "ENOTFOUND" then
      (SCORE_CRITERIA.CNAME_deprecated.score, [⟨"❌", -15, SCORE_CRITERIA.CNAME_deprecated.message⟩])
    else
      (0, [⟨"⚠️", 0, "CNAME 레코드 확인 중 오류 발생: " ++ e.message⟩])

/-- JS `dns.reverse(ip).catch(() => '')`: `some hostnames` on success,
`none` for the empty-string fallback value installed on failure. -/
def reverseLookup (r : Resolver) (ip : String) : Option (List String) :=
  match r.reverse ip with
  | Except.ok hostnames => some hostnames
  | Except.error _ => none

/-- JS `ptr[0]` on a per-address reverse result: the first hostname of a
successful lookup (`undefined`, i.e. `none`, when the array is empty or
the per-address value is the `''` failure fallback). -/
def ptrFirst : Option (List String) → Option String
  | some hostnames => hostnames.head?
  | none => none

/-- JS `reverseLookups.flat()` on one element: a successful lookup
contributes its hostnames, the `''` failure fallback stays as one empty
string element. -/
def ptrFlat : Option (List String) → List String
  | some hostnames => hostnames
  | none => [""]

/-- Check 5: A-record stability via `dns.resolve4(domain)`. Five or more
addresses is the fast-flux penalty; one to four triggers reverse lookups
whose first hostnames are matched against `RELIABLE_IP_PROVIDERS`; an
`ENODATA`/`ENOTFOUND` failure pushes no line at all. -/
def checkA (domain : String) (r : Resolver) : Int × List Finding :=
  match r.resolve4 domain with
  | Except.ok aRecords =>
    if aRecords.length > 0 then
      if aRecords.length ≥ 5 then
        (SCORE_CRITERIA.A_unstable.score,
          [⟨"❌", -10, SCORE_CRITERIA.A_unstable.message ++ " (발견된 IP: " ++ toString aRecords.length ++ "개)"⟩])
      else
        let reverseLookups := aRecords.map fun ip => reverseLookup r ip
        let isStableIp := reverseLookups.any fun ptr =>
          RELIABLE_IP_PROVIDERS.any fun provider =>
            match ptrFirst ptr with
            | some h => if h = "" then false else strIncludes (strToLower h) provider
            | none => false
        if isStableIp then
          (SCORE_CRITERIA.A_stable.score,
            [⟨"✅", 5, SCORE_CRITERIA.A_stable.message ++ " (PTR: " ++ String.intercalate ", " (reverseLookups.map ptrFlat).flatten ++ ")"⟩])
        else
          let ptrText := String.intercalate ", " (reverseLookups.map ptrFlat).flatten
          (0, [⟨"ℹ️", 0, "A 레코드가 클라우드 제공업체 IP가 아닐 수 있습니다. (PTR: " ++ (if ptrText = "" then "N/A" else ptrText) ++ ")"⟩])
    else
      (0, [⟨"⚠️", 0, "A 레코드를 찾을 수 없습니다."⟩])
  | Except.error e =>
    if e.code ≠ "ENODATA" ∧ e.code ≠ "ENOTFOUND" then
      (0, [⟨"⚠️", 0, "A 레코드 확인 중 오류 발생: " ++ e.message⟩])
    else
      (0, [])

/-- Check 6: MX via `dns.resolveMx(domain)`. A non-empty answer is the
positive outcome; an empty answer or `ENODATA`/`ENOTFOUND` is the
penalty; other errors yield a warning line. -/
def checkMX (domain : String) (r : Resolver) : Int × List Finding :=
  match r.resolveMx domain with
  | Except.ok mxRecords =>
    if mxRecords.length > 0 then
      (SCORE_CRITERIA.MX_exists.score, [⟨"✅", 5, SCORE_CRITERIA.MX_exists.message⟩])
    else
      (SCORE_CRITERIA.MX_not_exists.score, [⟨"❌", -5, SCORE_CRITERIA.MX_not_exists.message⟩])
  | Except.error e =>
    if e.code = "ENODATA" ∨ e.code = "ENOTFOUND" then
      (SCORE_CRITERIA.MX_not_exists.score, [⟨"❌", -5, SCORE_CRITERIA.MX_not_exists.message⟩])
    else
      (0, [⟨"⚠️", 0, "MX 레코드 확인 중 오류 발생: " ++ e.message⟩])

/-- The evaluator `generateTrustReport(domain)`: runs the six checks in
order, sums their `totalScore` contributions, and concatenates the report
lines they pushed, exactly as the JS accumulator does. -/
def generateTrustReport (domain : String) (r : Resolver) : TrustReport :=
  let c1 := checkSPF domain r
  let c2 := checkDMARC domain r
  let c3 := checkNS domain r
  let c4 := checkCNAME domain r
  let c5 := checkA domain r
  let c6 := checkMX domain r
  { domain := domain
    totalScore := c1.1 + c2.1 + c3.1 + c4.1 + c5.1 + c6.1
    findings := c1.2 ++ c2.2 ++ c3.2 ++ c4.2 ++ c5.2 ++ c6.2 }

theorem checkSPF_fst_eq_sum (domain : String) (r : Resolver) :
    (checkSPF domain r).1 = ((checkSPF domain r).2.map Finding.scoreDelta).sum := by
  unfold checkSPF
  cases r.resolveTxt domain <;> dsimp only <;> split <;>
    simp [SCORE_CRITERIA.SPF_exists, SCORE_CRITERIA.SPF_not_exists]

theorem checkDMARC_fst_eq_sum (domain : String) (r : Resolver) :
    (checkDMARC domain r).1 = ((checkDMARC domain r).2.map Finding.scoreDelta).sum := by
  unfold checkDMARC
  cases r.resolveTxt ("_dmarc." ++ domain) <;> dsimp only <;> split <;>
    simp [SCORE_CRITERIA.DMARC_exists, SCORE_CRITERIA.DMARC_not_exists]

theorem checkNS_fst_eq_sum (domain : String) (r : Resolver) :
    (checkNS domain r).1 = ((checkNS domain r).2.map Finding.scoreDelta).sum := by
  unfold checkNS
  cases r.resolveNs domain <;> dsimp only
  · simp
  · split <;> simp [SCORE_CRITERIA.NS_reliable, SCORE_CRITERIA.NS_unreliable]

theorem checkCNAME_fst_eq_sum (domain : String) (r : Resolver) :
    (checkCNAME domain r).1 = ((checkCNAME domain r).2.map Finding.scoreDelta).sum := by
  unfold checkCNAME
  cases r.resolveCname ("www." ++ domain) <;> dsimp only
  · split
    · simp
    · split <;> simp [SCORE_CRITERIA.CNAME_deprecated]
  · simp [SCORE_CRITERIA.CNAME_normal]

theorem checkA_fst_eq_sum (domain : String) (r : Resolver) :
    (checkA domain r).1 = ((checkA domain r).2.map Finding.scoreDelta).sum := by
  unfold checkA
  cases r.resolve4 domain <;> dsimp only
  · split <;> simp
  · split
    · split
      · simp [SCORE_CRITERIA.A_unstable]
      · split <;> simp [SCORE_CRITERIA.A_stable]
    · simp

theorem checkMX_fst_eq_sum (domain : String) (r : Resolver) :
    (checkMX domain r).1 = ((checkMX domain r).2.map Finding.scoreDelta).sum := by
  unfold checkMX
  cases r.resolveMx domain <;> dsimp only <;> split <;>
    simp [SCORE_CRITERIA.MX_exists, SCORE_CRITERIA.MX_not_exists]

/-- C1: for every domain and resolver, the report's `totalScore` equals
the sum of the score deltas of the findings it contains — every branch
that adds a delta to `totalScore` pushes exactly one finding carrying
that delta, and zero-delta findings add nothing. -/
theorem generateTrustReport_totalScore_eq_sum_of_deltas (domain : String) (r : Resolver) :
    (generateTrustReport domain r).totalScore =
      ((generateTrustReport domain r).findings.map Finding.scoreDelta).sum := by
  unfold generateTrustReport
  simp only [List.map_append, List.sum_append]
  rw [checkSPF_fst_eq_sum, checkDMARC_fst_eq_sum, checkNS_fst_eq_sum,
    checkCNAME_fst_eq_sum, checkA_fst_eq_sum, checkMX_fst_eq_sum]

/-- Whether the A check pushes no report line at all: exactly when the
primary `resolve4` lookup fails with `ENODATA` or `ENOTFOUND` (the JS
`catch` block is silent for these codes). -/
def aOmitted (domain : String) (r : Resolver) : Bool :=
  match r.resolve4 domain with
  | Except.ok _ => false
  | Except.error e => e.code == "ENODATA" || e.code == "ENOTFOUND"

theorem checkSPF_length (domain : String) (r : Resolver) :
    (checkSPF domain r).2.length = 1 := by
  unfold checkSPF
  cases r.resolveTxt domain <;> dsimp only <;> split <;> simp

theorem checkDMARC_length (domain : String) (r : Resolver) :
    (checkDMARC domain r).2.length = 1 := by
  unfold checkDMARC
  cases r.resolveTxt ("_dmarc." ++ domain) <;> dsimp only <;> split <;> simp

theorem checkNS_length (domain : String) (r : Resolver) :
    (checkNS domain r).2.length = 1 := by
  unfold checkNS
  cases r.resolveNs domain <;> dsimp only
  · simp
  · split <;> simp

theorem checkCNAME_length (domain : String) (r : Resolver) :
    (checkCNAME domain r).2.length = 1 := by
  unfold checkCNAME
  cases r.resolveCname ("www." ++ domain) <;> dsimp only
  · split
    · simp
    · split <;> simp
  · simp

theorem checkA_length (domain : String) (r : Resolver) :
    (checkA domain r).2.length = (if aOmitted domain r then 0 else 1) := by
  unfold checkA aOmitted
  cases r.resolve4 domain <;> dsimp only
  case error e =>
    by_cases h1 : e.code = "ENODATA" <;> by_cases h2 : e.code = "ENOTFOUND" <;>
      simp [h1, h2]
  case ok l =>
    split
    · split
      · simp
      · split <;> simp
    · simp

theorem checkMX_length (domain : String) (r : Resolver) :
    (checkMX domain r).2.length = 1 := by
  unfold checkMX
  cases r.resolveMx domain <;> dsimp only <;> split <;> simp

/-- A resolver on which every lookup succeeds except the A query, which
fails with `ENOTFOUND`. -/
def aNotFoundResolver : Resolver where
  resolveTxt := fun _ => Except.ok [["v=spf1 -all"]]
  resolveNs := fun _ => Except.ok ["ns1.cloudflare.com"]
  resolveCname := fun _ => Except.ok ["target.example.net"]
  resolve4 := fun _ => Except.error ⟨"ENOTFOUND", "queryA ENOTFOUND example.com"⟩
  resolveMx := fun _ => Except.ok [⟨10, "mail.example.com"⟩]
  reverse := fun _ => Except.ok ["host.example.net"]

/-- C2 counterexample: with an A-record lookup failing with `ENOTFOUND`,
the report contains only five findings — the A check is silently omitted
instead of contributing a zero-delta informational finding. -/
theorem generateTrustReport_omits_a_finding_on_notfound :
    (generateTrustReport "example.com" aNotFoundResolver).findings.length = 5 := by
  rfl

/-- C2 (amended): the findings list is the concatenation, in the fixed
order SPF, DMARC, NS, CNAME, A, MX, of the per-check findings; each check
contributes exactly one finding, except the A check, which contributes
none when its primary lookup fails with `ENODATA`/`ENOTFOUND` — so a
report has six findings in general but only five in that case. -/
theorem generateTrustReport_findings_counts (domain : String) (r : Resolver) :
    (checkSPF domain r).2.length = 1 ∧
    (checkDMARC domain r).2.length = 1 ∧
    (checkNS domain r).2.length = 1 ∧
    (checkCNAME domain r).2.length = 1 ∧
    (checkA domain r).2.length = (if aOmitted domain r then 0 else 1) ∧
    (checkMX domain r).2.length = 1 ∧
    (generateTrustReport domain r).findings =
      (checkSPF domain r).2 ++ ((checkDMARC domain r).2 ++ ((checkNS domain r).2 ++
        ((checkCNAME domain r).2 ++ ((checkA domain r).2 ++ (checkMX domain r).2)))) ∧
    (generateTrustReport domain r).findings.length = (if aOmitted domain r then 5 else 6) := by
  refine ⟨checkSPF_length domain r, checkDMARC_length domain r, checkNS_length domain r,
    checkCNAME_length domain r, checkA_length domain r, checkMX_length domain r, ?_, ?_⟩
  · unfold generateTrustReport
    simp [List.append_assoc]
  · unfold generateTrustReport
    simp only [List.length_append]
    rw [checkSPF_length, checkDMARC_length, checkNS_length, checkCNAME_length,
      checkA_length, checkMX_length]
    by_cases h : aOmitted domain r <;> simp [h]

/-- C3: if each of the six primary lookups fails with an error code other
than `ENODATA`/`ENOTFOUND` (a transient failure), the report scores 0 and
consists of six zero-delta warning findings — transient failure is never
scored as a penalty. -/
theorem generateTrustReport_all_transient_zero (domain : String) (r : Resolver)
    (h1 : ∃ e, r.resolveTxt domain = Except.error e ∧ e.code ≠ "ENODATA" ∧ e.code ≠ "ENOTFOUND")
    (h2 : ∃ e, r.resolveTxt ("_dmarc." ++ domain) = Except.error e ∧ e.code ≠ "ENODATA" ∧ e.code ≠ "ENOTFOUND")
    (h3 : ∃ e, r.resolveNs domain = Except.error e)
    (h4 : ∃ e, r.resolveCname ("www." ++ domain) = Except.error e ∧ e.code ≠ "ENODATA" ∧ e.code ≠ "ENOTFOUND")
    (h5 : ∃ e, r.resolve4 domain = Except.error e ∧ e.code ≠ "ENODATA" ∧ e.code ≠ "ENOTFOUND")
    (h6 : ∃ e, r.resolveMx domain = Except.error e ∧ e.code ≠ "ENODATA" ∧ e.code ≠ "ENOTFOUND") :
    (generateTrustReport domain r).totalScore = 0 ∧
    (generateTrustReport domain r).findings.length = 6 ∧
    ∀ f ∈ (generateTrustReport domain r).findings, f.scoreDelta = 0 ∧ f.emoji = "⚠️" := by
  obtain ⟨e1, he1, hc1a, hc1b⟩ := h1
  obtain ⟨e2, he2, hc2a, hc2b⟩ := h2
  obtain ⟨e3, he3⟩ := h3
  obtain ⟨e4, he4, hc4a, hc4b⟩ := h4
  obtain ⟨e5, he5, hc5a, hc5b⟩ := h5
  obtain ⟨e6, he6, hc6a, hc6b⟩ := h6
  unfold generateTrustReport checkSPF checkDMARC checkNS checkCNAME checkA checkMX
  rw [he1, he2, he3, he4, he5, he6]
  simp [hc1a, hc1b, hc2a, hc2b, hc4a, hc4b, hc5a, hc5b, hc6a, hc6b]

/-- A resolver on which every query fails with a transient error code. -/
def allTransientResolver : Resolver where
  resolveTxt := fun _ => Except.error ⟨"ETIMEOUT", "queryTxt ETIMEOUT"⟩
  resolveNs := fun _ => Except.error ⟨"ETIMEOUT", "queryNs ETIMEOUT"⟩
  resolveCname := fun _ => Except.error ⟨"ETIMEOUT", "queryCname ETIMEOUT"⟩
  resolve4 := fun _ => Except.error ⟨"ETIMEOUT", "queryA ETIMEOUT"⟩
  resolveMx := fun _ => Except.error ⟨"ETIMEOUT", "queryMx ETIMEOUT"⟩
  reverse := fun _ => Except.error ⟨"ETIMEOUT", "reverse ETIMEOUT"⟩

/-- Witness for C3 at a concrete all-transient resolver. -/
theorem generateTrustReport_all_transient_zero_witness :
    (generateTrustReport "example.com" allTransientResolver).totalScore = 0 ∧
    (generateTrustReport "example.com" allTransientResolver).findings.length = 6 ∧
    ∀ f ∈ (generateTrustReport "example.com" allTransientResolver).findings,
      f.scoreDelta = 0 ∧ f.emoji = "⚠️" :=
  generateTrustReport_all_transient_zero "example.com" allTransientResolver
    ⟨⟨"ETIMEOUT", "queryTxt ETIMEOUT"⟩, rfl, by decide, by decide⟩
    ⟨⟨"ETIMEOUT", "queryTxt ETIMEOUT"⟩, rfl, by decide, by decide⟩
    ⟨⟨"ETIMEOUT", "queryNs ETIMEOUT"⟩, rfl⟩
    ⟨⟨"ETIMEOUT", "queryCname ETIMEOUT"⟩, rfl, by decide, by decide⟩
    ⟨⟨"ETIMEOUT", "queryA ETIMEOUT"⟩, rfl, by decide, by decide⟩
    ⟨⟨"ETIMEOUT", "queryMx ETIMEOUT"⟩, rfl, by decide, by decide⟩

theorem checkA_many (domain : String) (r : Resolver) (l : List String)
    (h : r.resolve4 domain = Except.ok l) (h5 : 5 ≤ l.length) :
    checkA domain r =
      (-10, [⟨"❌", -10, SCORE_CRITERIA.A_unstable.message ++ " (발견된 IP: " ++ toString l.length ++ "개)"⟩]) := by
  unfold checkA
  rw [h]
  have hpos : l.length > 0 := by omega
  simp [hpos, h5, SCORE_CRITERIA.A_unstable]

/-- C4: when the A query returns five or more addresses, the check takes
the fast-flux branch: score delta −10 with a single penalty finding, and
the reverse-lookup capability is never consulted — the whole report is
unchanged under any replacement of the resolver's `reverse` function. -/
theorem checkA_many_addresses_no_reverse (domain : String) (r : Resolver) (l : List String)
    (h : r.resolve4 domain = Except.ok l) (h5 : 5 ≤ l.length) :
    (checkA domain r).1 = -10 ∧
    (checkA domain r).2.map Finding.scoreDelta = [-10] ∧
    ∀ rev, generateTrustReport domain { r with reverse := rev } = generateTrustReport domain r := by
  have hmany := checkA_many domain r l h h5
  refine ⟨by rw [hmany], by rw [hmany]; rfl, ?_⟩
  intro rev
  have hmany' := checkA_many domain { r with reverse := rev } l h h5
  unfold generateTrustReport
  rw [hmany, hmany']
  rfl

/-- A resolver whose A query returns five distinct addresses and whose
reverse lookups all fail. -/
def fiveAddrResolver : Resolver where
  resolveTxt := fun _ => Except.ok []
  resolveNs := fun _ => Except.ok []
  resolveCname := fun _ => Except.ok []
  resolve4 := fun _ => Except.ok ["1.1.1.1", "2.2.2.2", "3.3.3.3", "4.4.4.4", "5.5.5.5"]
  resolveMx := fun _ => Except.ok []
  reverse := fun _ => Except.error ⟨"ENOTFOUND", "reverse failed"⟩

/-- A reverse-lookup function that would report an amazonaws hostname. -/
def amazonReverse : String → Except DnsError (List String) :=
  fun _ => Except.ok ["ec2-1-1-1-1.compute.amazonaws.com"]

/-- Witness for C4 at a concrete five-address resolver: the penalty is
applied, and swapping in a reverse function that would report a cloud
provider changes nothing. -/
theorem checkA_many_addresses_no_reverse_witness :
    (checkA "example.com" fiveAddrResolver).1 = -10 ∧
    generateTrustReport "example.com" { fiveAddrResolver with reverse := amazonReverse } =
      generateTrustReport "example.com" fiveAddrResolver :=
  ⟨(checkA_many_addresses_no_reverse "example.com" fiveAddrResolver
      ["1.1.1.1", "2.2.2.2", "3.3.3.3", "4.4.4.4", "5.5.5.5"] rfl (by decide)).1,
   (checkA_many_addresses_no_reverse "example.com" fiveAddrResolver
      ["1.1.1.1", "2.2.2.2", "3.3.3.3", "4.4.4.4", "5.5.5.5"] rfl (by decide)).2.2 amazonReverse⟩

/-- C10: the fast-flux penalty is decided by the length of the returned
address list alone, with no deduplication — five copies of one address
trigger it just as five distinct addresses do. -/
theorem checkA_penalty_ignores_duplicates (domain : String) (r : Resolver) (ip : String)
    (h : r.resolve4 domain = Except.ok (List.replicate 5 ip)) :
    (checkA domain r).1 = -10 ∧ (checkA domain r).2.map Finding.scoreDelta = [-10] := by
  have hmany := checkA_many domain r (List.replicate 5 ip) h (by simp)
  rw [hmany]
  exact ⟨rfl, rfl⟩

/-- A resolver whose A query returns the same address five times. -/
def dupAddrResolver : Resolver where
  resolveTxt := fun _ => Except.ok []
  resolveNs := fun _ => Except.ok []
  resolveCname := fun _ => Except.ok []
  resolve4 := fun _ => Except.ok ["9.9.9.9", "9.9.9.9", "9.9.9.9", "9.9.9.9", "9.9.9.9"]
  resolveMx := fun _ => Except.ok []
  reverse := fun _ => Except.ok ["dns9.quad9.net"]

/-- Witness for C10: five copies of one address still yield the −10
fast-flux finding. -/
theorem checkA_penalty_ignores_duplicates_witness :
    (checkA "example.com" dupAddrResolver).1 = -10 ∧
    (checkA "example.com" dupAddrResolver).2.map Finding.scoreDelta = [-10] :=
  checkA_penalty_ignores_duplicates "example.com" dupAddrResolver "9.9.9.9" rfl

/-- The first hostname the evaluator can see for an address: `ptr[0]` of
`dns.reverse(ip).catch(() => '')`. -/
def firstHost (r : Resolver) (ip : String) : Option String :=
  ptrFirst (reverseLookup r ip)

theorem any_stable_iff (r : Resolver) (l : List String) :
    ((l.map fun ip => reverseLookup r ip).any fun ptr =>
        RELIABLE_IP_PROVIDERS.any fun provider =>
          match ptrFirst ptr with
          | some h => if h = "" then false else strIncludes (strToLower h) provider
          | none => false) = true ↔
      ∃ ip ∈ l, ∃ hn, firstHost r ip = some hn ∧ hn ≠ "" ∧
        ∃ p ∈ RELIABLE_IP_PROVIDERS, strIncludes (strToLower hn) p = true := by
  rw [List.any_eq_true]
  constructor
  · rintro ⟨ptr, hptr, hany⟩
    rw [List.mem_map] at hptr
    obtain ⟨ip, hip, rfl⟩ := hptr
    rw [List.any_eq_true] at hany
    obtain ⟨p, hp, hmatch⟩ := hany
    cases hfh : ptrFirst (reverseLookup r ip) with
    | none => rw [hfh] at hmatch; simp at hmatch
    | some hn =>
      rw [hfh] at hmatch
      dsimp only at hmatch
      by_cases hself : hn = ""
      · rw [if_pos hself] at hmatch; simp at hmatch
      · rw [if_neg hself] at hmatch
        exact ⟨ip, hip, hn, hfh, hself, p, hp, hmatch⟩
  · rintro ⟨ip, hip, hn, hfh, hne, p, hp, hinc⟩
    unfold firstHost at hfh
    refine ⟨reverseLookup r ip, List.mem_map.mpr ⟨ip, hip, rfl⟩, ?_⟩
    rw [List.any_eq_true]
    refine ⟨p, hp, ?_⟩
    rw [hfh]
    dsimp only
    rw [if_neg hne]
    exact hinc

/-- C5 (amended): with one to four A-record addresses, the check scores
+5 exactly when some address's reverse result has a FIRST hostname that
is nonempty and case-insensitively contains one of the
`RELIABLE_IP_PROVIDERS`; otherwise it is the zero-delta informational
outcome. Hostnames after the first in a reverse result are never
inspected, and a failed reverse lookup simply contributes no evidence. -/
theorem checkA_few_addresses_first_hostname (domain : String) (r : Resolver) (l : List String)
    (h : r.resolve4 domain = Except.ok l) (h0 : 0 < l.length) (h4 : l.length < 5) :
    ((∃ ip ∈ l, ∃ hn, firstHost r ip = some hn ∧ hn ≠ "" ∧
        ∃ p ∈ RELIABLE_IP_PROVIDERS, strIncludes (strToLower hn) p = true) →
      (checkA domain r).1 = 5 ∧ (checkA domain r).2.map Finding.scoreDelta = [5]) ∧
    ((¬ ∃ ip ∈ l, ∃ hn, firstHost r ip = some hn ∧ hn ≠ "" ∧
        ∃ p ∈ RELIABLE_IP_PROVIDERS, strIncludes (strToLower hn) p = true) →
      (checkA domain r).1 = 0 ∧ (checkA domain r).2.map Finding.scoreDelta = [0]) := by
  have hge : ¬ (l.length ≥ 5) := by omega
  constructor
  · intro hP
    have hB := (any_stable_iff r l).mpr hP
    unfold checkA
    rw [h]
    dsimp only
    rw [if_pos h0, if_neg hge, if_pos hB]
    exact ⟨rfl, rfl⟩
  · intro hP
    have hB : ¬ ((l.map fun ip => reverseLookup r ip).any fun ptr =>
        RELIABLE_IP_PROVIDERS.any fun provider =>
          match ptrFirst ptr with
          | some h => if h = "" then false else strIncludes (strToLower h) provider
          | none => false) = true := fun hc => hP ((any_stable_iff r l).mp hc)
    unfold checkA
    rw [h]
    dsimp only
    rw [if_pos h0, if_neg hge, if_neg hB]
    exact ⟨rfl, rfl⟩

/-- A resolver with one address whose reverse lookup lists a cloud
provider hostname second, after a non-provider first hostname. -/
def secondHostnameResolver : Resolver where
  resolveTxt := fun _ => Except.error ⟨"ENODATA", "no records"⟩
  resolveNs := fun _ => Except.error ⟨"ENODATA", "no records"⟩
  resolveCname := fun _ => Except.error ⟨"ENODATA", "no records"⟩
  resolve4 := fun _ => Except.ok ["3.3.3.3"]
  resolveMx := fun _ => Except.error ⟨"ENODATA", "no records"⟩
  reverse := fun _ => Except.ok ["gateway.example.net", "ec2-3-3-3-3.compute.amazonaws.com"]

/-- C5 counterexample: the reverse result for the single address does
contain a hostname with `amazonaws`, but only in second position — the
check still classifies the zero-delta unknown-provider outcome, because
the code inspects only `ptr[0]`. -/
theorem checkA_ignores_later_hostnames :
    secondHostnameResolver.reverse "3.3.3.3" =
      Except.ok ["gateway.example.net", "ec2-3-3-3-3.compute.amazonaws.com"] ∧
    strIncludes (strToLower "ec2-3-3-3-3.compute.amazonaws.com") "amazonaws" = true ∧
    (checkA "example.com" secondHostnameResolver).1 = 0 ∧
    (checkA "example.com" secondHostnameResolver).2.map Finding.scoreDelta = [0] := by
  refine ⟨rfl, by decide, ?_, ?_⟩ <;> rfl

/-- A resolver with two addresses: the first reverse lookup fails, the
second returns an amazonaws hostname first. -/
def stableIpResolver : Resolver where
  resolveTxt := fun _ => Except.error ⟨"ENODATA", "no records"⟩
  resolveNs := fun _ => Except.error ⟨"ENODATA", "no records"⟩
  resolveCname := fun _ => Except.error ⟨"ENODATA", "no records"⟩
  resolve4 := fun _ => Except.ok ["3.3.3.3", "4.4.4.4"]
  resolveMx := fun _ => Except.error ⟨"ENODATA", "no records"⟩
  reverse := fun ip =>
    if ip = "3.3.3.3" then Except.error ⟨"ENOTFOUND", "reverse failed"⟩
    else Except.ok ["ec2-4-4-4-4.compute.amazonaws.com"]

/-- Witness for C5 (amended): one failing reverse lookup plus one whose
first hostname contains `amazonaws` yields the +5 outcome. -/
theorem checkA_few_addresses_first_hostname_witness :
    (checkA "example.com" stableIpResolver).1 = 5 ∧
    (checkA "example.com" stableIpResolver).2.map Finding.scoreDelta = [5] :=
  (checkA_few_addresses_first_hostname "example.com" stableIpResolver ["3.3.3.3", "4.4.4.4"]
      rfl (by decide) (by decide)).1
    ⟨"4.4.4.4", by decide, "ec2-4-4-4-4.compute.amazonaws.com", rfl, by decide,
      "amazonaws", by decide, by decide⟩

theorem checkSPF_present (domain : String) (r : Resolver) (records : List (List String))
    (h : r.resolveTxt domain = Except.ok records)
    (hspf : ∃ rec ∈ records, strStartsWith (strJoin rec) "v=spf1" = true) :
    checkSPF domain r = (10, [⟨"✅", 10, SCORE_CRITERIA.SPF_exists.message⟩]) := by
  have hB : (records.any fun record => strStartsWith (strJoin record) "v=spf1") = true :=
    List.any_eq_true.mpr hspf
  unfold checkSPF
  rw [h]
  dsimp only
  rw [if_pos hB]
  rfl

theorem checkSPF_absent_of_ok (domain : String) (r : Resolver) (records : List (List String))
    (h : r.resolveTxt domain = Except.ok records)
    (hspf : ¬ ∃ rec ∈ records, strStartsWith (strJoin rec) "v=spf1" = true) :
    checkSPF domain r = (-10, [⟨"❌", -10, SCORE_CRITERIA.SPF_not_exists.message⟩]) := by
  have hB : ¬ (records.any fun record => strStartsWith (strJoin record) "v=spf1") = true :=
    fun hc => hspf (List.any_eq_true.mp hc)
  unfold checkSPF
  rw [h]
  dsimp only
  rw [if_neg hB]
  rfl

theorem checkSPF_absent_of_error (domain : String) (r : Resolver) (e : DnsError)
    (h : r.resolveTxt domain = Except.error e)
    (hc : e.code = "ENODATA" ∨ e.code = "ENOTFOUND") :
    checkSPF domain r = (-10, [⟨"❌", -10, SCORE_CRITERIA.SPF_not_exists.message⟩]) := by
  unfold checkSPF
  rw [h]
  dsimp only
  rw [if_pos hc]
  rfl

theorem checkSPF_transient (domain : String) (r : Resolver) (e : DnsError)
    (h : r.resolveTxt domain = Except.error e)
    (h1 : e.code ≠ "ENODATA") (h2 : e.code ≠ "ENOTFOUND") :
    checkSPF domain r = (0, [⟨"⚠️", 0, "SPF 레코드 확인 중 오류 발생: " ++ e.message⟩]) := by
  unfold checkSPF
  rw [h]
  dsimp only
  rw [if_neg (not_or.mpr ⟨h1, h2⟩)]

/-- C7: the SPF check classifies Present (+10) exactly when some returned
TXT record's concatenated segments start with the literal `v=spf1`;
otherwise, and on `ENODATA`/`ENOTFOUND`, it is Absent (−10); any other
error code yields the zero-delta warning finding. -/
theorem checkSPF_outcomes (domain : String) (r : Resolver) :
    (∀ records, r.resolveTxt domain = Except.ok records →
      ((∃ rec ∈ records, strStartsWith (strJoin rec) "v=spf1" = true) →
        checkSPF domain r = (10, [⟨"✅", 10, SCORE_CRITERIA.SPF_exists.message⟩])) ∧
      ((¬ ∃ rec ∈ records, strStartsWith (strJoin rec) "v=spf1" = true) →
        checkSPF domain r = (-10, [⟨"❌", -10, SCORE_CRITERIA.SPF_not_exists.message⟩]))) ∧
    (∀ e, r.resolveTxt domain = Except.error e →
      ((e.code = "ENODATA" ∨ e.code = "ENOTFOUND") →
        checkSPF domain r = (-10, [⟨"❌", -10, SCORE_CRITERIA.SPF_not_exists.message⟩])) ∧
      (e.code ≠ "ENODATA" → e.code ≠ "ENOTFOUND" →
        checkSPF domain r = (0, [⟨"⚠️", 0, "SPF 레코드 확인 중 오류 발생: " ++ e.message⟩]))) := by
  refine ⟨fun records hrec => ⟨fun hex => ?_, fun hex => ?_⟩, fun e he => ⟨fun hc => ?_, fun h1 h2 => ?_⟩⟩
  · exact checkSPF_present domain r records hrec hex
  · exact checkSPF_absent_of_ok domain r records hrec hex
  · exact checkSPF_absent_of_error domain r e he hc
  · exact checkSPF_transient domain r e he h1 h2

/-- A resolver whose TXT answer carries an SPF record. -/
def spfPresentResolver : Resolver where
  resolveTxt := fun _ => Except.ok [["v=sp", "f1 include:mail.example.com -all"]]
  resolveNs := fun _ => Except.ok ["ns1.example.net"]
  resolveCname := fun _ => Except.ok ["edge.example.net"]
  resolve4 := fun _ => Except.ok ["8.8.8.8"]
  resolveMx := fun _ => Except.ok [⟨10, "mail.example.com"⟩]
  reverse := fun _ => Except.ok ["dns.google"]

/-- Witness for C7: a segmented TXT record whose concatenation starts
with `v=spf1` yields the +10 finding. -/
theorem checkSPF_outcomes_witness :
    checkSPF "example.com" spfPresentResolver =
      (10, [⟨"✅", 10, SCORE_CRITERIA.SPF_exists.message⟩]) :=
  ((checkSPF_outcomes "example.com" spfPresentResolver).1
      [["v=sp", "f1 include:mail.example.com -all"]] rfl).1
    ⟨["v=sp", "f1 include:mail.example.com -all"], by decide, by decide⟩

theorem checkCNAME_ok (domain : String) (r : Resolver) (l : List String)
    (h : r.resolveCname ("www." ++ domain) = Except.ok l) :
    checkCNAME domain r = (5, [⟨"✅", 5, SCORE_CRITERIA.CNAME_normal.message⟩]) := by
  unfold checkCNAME
  rw [h]
  rfl

theorem checkCNAME_nodata (domain : String) (r : Resolver) (e : DnsError)
    (h : r.resolveCname ("www." ++ domain) = Except.error e)
    (hc : e.code = "ENODATA") :
    checkCNAME domain r =
      (0, [⟨"ℹ️", 0, "www 서브도메인에 CNAME 레코드가 없습니다. (A 레코드 직접 사용)"⟩]) := by
  unfold checkCNAME
  rw [h]
  dsimp only
  rw [if_pos hc]

theorem checkCNAME_notfound (domain : String) (r : Resolver) (e : DnsError)
    (h : r.resolveCname ("www." ++ domain) = Except.error e)
    (hc : e.code = "ENOTFOUND") :
    checkCNAME domain r = (-15, [⟨"❌", -15, SCORE_CRITERIA.CNAME_deprecated.message⟩]) := by
  unfold checkCNAME
  rw [h]
  dsimp only
  rw [if_neg (by rw [hc]; decide), if_pos hc]
  rfl

theorem checkCNAME_transient (domain : String) (r : Resolver) (e : DnsError)
    (h : r.resolveCname ("www." ++ domain) = Except.error e)
    (h1 : e.code ≠ "ENODATA") (h2 : e.code ≠ "ENOTFOUND") :
    checkCNAME domain r = (0, [⟨"⚠️", 0, "CNAME 레코드 확인 중 오류 발생: " ++ e.message⟩]) := by
  unfold checkCNAME
  rw [h]
  dsimp only
  rw [if_neg h1, if_neg h2]

/-- C6: the CNAME check on `www.<domain>` yields the −15 penalty on
`ENOTFOUND`, the zero-delta informational finding on `ENODATA`, the +5
normal finding on any successful resolution, and, on any other error
code, a zero-delta warning finding distinct from both the `ENODATA` and
`ENOTFOUND` findings. -/
theorem checkCNAME_outcomes (domain : String) (r : Resolver) :
    (∀ l, r.resolveCname ("www." ++ domain) = Except.ok l →
      checkCNAME domain r = (5, [⟨"✅", 5, SCORE_CRITERIA.CNAME_normal.message⟩])) ∧
    (∀ e, r.resolveCname ("www." ++ domain) = Except.error e →
      (e.code = "ENODATA" →
        checkCNAME domain r =
          (0, [⟨"ℹ️", 0, "www 서브도메인에 CNAME 레코드가 없습니다. (A 레코드 직접 사용)"⟩])) ∧
      (e.code = "ENOTFOUND" →
        checkCNAME domain r = (-15, [⟨"❌", -15, SCORE_CRITERIA.CNAME_deprecated.message⟩])) ∧
      (e.code ≠ "ENODATA" → e.code ≠ "ENOTFOUND" →
        checkCNAME domain r = (0, [⟨"⚠️", 0, "CNAME 레코드 확인 중 오류 발생: " ++ e.message⟩]) ∧
        ∀ f ∈ (checkCNAME domain r).2,
          f ≠ ⟨"ℹ️", 0, "www 서브도메인에 CNAME 레코드가 없습니다. (A 레코드 직접 사용)"⟩ ∧
          f ≠ ⟨"❌", -15, SCORE_CRITERIA.CNAME_deprecated.message⟩)) := by
  refine ⟨fun l hl => checkCNAME_ok domain r l hl,
    fun e he => ⟨fun hc => checkCNAME_nodata domain r e he hc,
      fun hc => checkCNAME_notfound domain r e he hc,
      fun h1 h2 => ?_⟩⟩
  have ht := checkCNAME_transient domain r e he h1 h2
  refine ⟨ht, ?_⟩
  intro f hf
  rw [ht] at hf
  rw [List.mem_singleton] at hf
  subst hf
  constructor
  · intro hq
    have h3 : ("⚠️" : String) = "ℹ️" := congrArg Finding.emoji hq
    exact absurd h3 (by decide)
  · intro hq
    have h3 : ("⚠️" : String) = "❌" := congrArg Finding.emoji hq
    exact absurd h3 (by decide)

/-- A resolver whose CNAME lookup at the `www` subdomain fails with
`ENOTFOUND`. -/
def cnameDeadResolver : Resolver where
  resolveTxt := fun _ => Except.ok []
  resolveNs := fun _ => Except.ok ["ns1.example.net"]
  resolveCname := fun _ => Except.error ⟨"ENOTFOUND", "queryCname ENOTFOUND www.example.com"⟩
  resolve4 := fun _ => Except.ok ["8.8.8.8"]
  resolveMx := fun _ => Except.ok []
  reverse := fun _ => Except.ok ["dns.google"]

/-- Witness for C6: an `ENOTFOUND` CNAME lookup yields the −15 finding. -/
theorem checkCNAME_outcomes_witness :
    checkCNAME "example.com" cnameDeadResolver =
      (-15, [⟨"❌", -15, SCORE_CRITERIA.CNAME_deprecated.message⟩]) :=
  ((checkCNAME_outcomes "example.com" cnameDeadResolver).2
      ⟨"ENOTFOUND", "queryCname ENOTFOUND www.example.com"⟩ rfl).2.1 rfl

theorem checkMX_present (domain : String) (r : Resolver) (l : List MxRecord)
    (h : r.resolveMx domain = Except.ok l) (hl : 0 < l.length) :
    checkMX domain r = (5, [⟨"✅", 5, SCORE_CRITERIA.MX_exists.message⟩]) := by
  unfold checkMX
  rw [h]
  dsimp only
  rw [if_pos hl]
  rfl

theorem checkMX_empty (domain : String) (r : Resolver)
    (h : r.resolveMx domain = Except.ok []) :
    checkMX domain r = (-5, [⟨"❌", -5, SCORE_CRITERIA.MX_not_exists.message⟩]) := by
  unfold checkMX
  rw [h]
  rfl

theorem checkMX_absent_of_error (domain : String) (r : Resolver) (e : DnsError)
    (h : r.resolveMx domain = Except.error e)
    (hc : e.code = "ENODATA" ∨ e.code = "ENOTFOUND") :
    checkMX domain r = (-5, [⟨"❌", -5, SCORE_CRITERIA.MX_not_exists.message⟩]) := by
  unfold checkMX
  rw [h]
  dsimp only
  rw [if_pos hc]
  rfl

theorem checkMX_transient (domain : String) (r : Resolver) (e : DnsError)
    (h : r.resolveMx domain = Except.error e)
    (h1 : e.code ≠ "ENODATA") (h2 : e.code ≠ "ENOTFOUND") :
    checkMX domain r = (0, [⟨"⚠️", 0, "MX 레코드 확인 중 오류 발생: " ++ e.message⟩]) := by
  unfold checkMX
  rw [h]
  dsimp only
  rw [if_neg (not_or.mpr ⟨h1, h2⟩)]

/-- C8: the MX check yields +5 when the query returns at least one
record, −5 when it returns the empty set or fails with
`ENODATA`/`ENOTFOUND`, and the zero-delta warning finding on any other
error code — MX absence is scored as a penalty. -/
theorem checkMX_outcomes (domain : String) (r : Resolver) :
    (∀ l, r.resolveMx domain = Except.ok l → 0 < l.length →
      checkMX domain r = (5, [⟨"✅", 5, SCORE_CRITERIA.MX_exists.message⟩])) ∧
    (r.resolveMx domain = Except.ok [] →
      checkMX domain r = (-5, [⟨"❌", -5, SCORE_CRITERIA.MX_not_exists.message⟩])) ∧
    (∀ e, r.resolveMx domain = Except.error e →
      ((e.code = "ENODATA" ∨ e.code = "ENOTFOUND") →
        checkMX domain r = (-5, [⟨"❌", -5, SCORE_CRITERIA.MX_not_exists.message⟩])) ∧
      (e.code ≠ "ENODATA" → e.code ≠ "ENOTFOUND" →
        checkMX domain r = (0, [⟨"⚠️", 0, "MX 레코드 확인 중 오류 발생: " ++ e.message⟩]))) :=
  ⟨fun l hl hlen => checkMX_present domain r l hl hlen,
   fun h => checkMX_empty domain r h,
   fun e he => ⟨fun hc => checkMX_absent_of_error domain r e he hc,
     fun h1 h2 => checkMX_transient domain r e he h1 h2⟩⟩

/-- A resolver whose MX query returns one record. -/
def mxPresentResolver : Resolver where
  resolveTxt := fun _ => Except.ok []
  resolveNs := fun _ => Except.ok ["ns1.example.net"]
  resolveCname := fun _ => Except.ok ["edge.example.net"]
  resolve4 := fun _ => Except.ok ["8.8.8.8"]
  resolveMx := fun _ => Except.ok [⟨10, "mail.example.com"⟩]
  reverse := fun _ => Except.ok ["dns.google"]

/-- Witness for C8: one MX record yields the +5 finding. -/
theorem checkMX_outcomes_witness :
    checkMX "example.com" mxPresentResolver =
      (5, [⟨"✅", 5, SCORE_CRITERIA.MX_exists.message⟩]) :=
  (checkMX_outcomes "example.com" mxPresentResolver).1
    [⟨10, "mail.example.com"⟩] rfl (by decide)

/-- A resolver that answers the TXT query (even for the empty domain)
with an SPF record and fails transiently elsewhere. -/
def emptyDomainSpfResolver : Resolver where
  resolveTxt := fun _ => Except.ok [["v=spf1 -all"]]
  resolveNs := fun _ => Except.error ⟨"ETIMEOUT", "ns fail"⟩
  resolveCname := fun _ => Except.error ⟨"ETIMEOUT", "cname fail"⟩
  resolve4 := fun _ => Except.error ⟨"ETIMEOUT", "a fail"⟩
  resolveMx := fun _ => Except.error ⟨"ETIMEOUT", "mx fail"⟩
  reverse := fun _ => Except.error ⟨"ETIMEOUT", "rev fail"⟩

/-- The same resolver except that TXT queries fail with `ENODATA`. -/
def emptyDomainNoSpfResolver : Resolver :=
  { emptyDomainSpfResolver with resolveTxt := fun _ => Except.error ⟨"ENODATA", "no txt"⟩ }

/-- C9 counterexample: invoked on the invalid (empty) domain string, the
evaluator raises no input-validation failure before calling the
resolver — it queries the resolver with the empty domain and folds the
answers into an ordinary six-finding report, whose total score tracks
what the resolver said (0 with an SPF answer and a DMARC miss, −20 when
TXT fails with `ENODATA`). -/
theorem generateTrustReport_empty_domain_consults_resolver :
    (generateTrustReport "" emptyDomainSpfResolver).totalScore = 0 ∧
    (generateTrustReport "" emptyDomainNoSpfResolver).totalScore = -20 ∧
    (generateTrustReport "" emptyDomainSpfResolver).findings.length = 6 ∧
    generateTrustReport "" emptyDomainSpfResolver ≠
      generateTrustReport "" emptyDomainNoSpfResolver := by
  refine ⟨by decide, by decide, by decide, ?_⟩
  intro hq
  have h0 : (generateTrustReport "" emptyDomainSpfResolver).totalScore = 0 := by decide
  have h1 : (generateTrustReport "" emptyDomainNoSpfResolver).totalScore = -20 := by decide
  have h2 := congrArg TrustReport.totalScore hq
  rw [h0, h1] at h2
  exact absurd h2 (by decide)

/-- C9 (amended): `generateTrustReport` performs no input validation of
its domain argument: for any resolver, the empty domain string is passed
to the resolver as-is, and the resolver's answer is folded into the
findings — a TXT answer for the empty domain carrying an SPF record
makes the report's first finding the +10 SPF finding, exactly as for any
other domain. (Empty input is screened only by the CLI prompt loop,
which re-prompts without calling the evaluator.) -/
theorem generateTrustReport_empty_domain_folds_resolver_answer (r : Resolver)
    (records : List (List String))
    (h : r.resolveTxt "" = Except.ok records)
    (hspf : ∃ rec ∈ records, strStartsWith (strJoin rec) "v=spf1" = true) :
    (generateTrustReport "" r).domain = "" ∧
    (generateTrustReport "" r).findings.head? =
      some ⟨"✅", 10, SCORE_CRITERIA.SPF_exists.message⟩ := by
  refine ⟨rfl, ?_⟩
  have hs := checkSPF_present "" r records h hspf
  unfold generateTrustReport
  rw [hs]
  rfl

/-- Witness for C9 (amended) at the concrete SPF-answering resolver. -/
theorem generateTrustReport_empty_domain_folds_resolver_answer_witness :
    (generateTrustReport "" emptyDomainSpfResolver).domain = "" ∧
    (generateTrustReport "" emptyDomainSpfResolver).findings.head? =
      some ⟨"✅", 10, SCORE_CRITERIA.SPF_exists.message⟩ :=
  generateTrustReport_empty_domain_folds_resolver_answer emptyDomainSpfResolver
    [["v=spf1 -all"]] rfl ⟨["v=spf1 -all"], by decide, by decide⟩
